import Mathlib

/-!
Verification of the dictator-battle chase/bias engine.

Shallow embedding of the TypeScript sources over exact rational
arithmetic.  JavaScript `number` values are modelled as `ℚ`; the 32-bit
integer bit patterns inside the RNG are modelled as `ℕ` reduced modulo
2^32 at exactly the points where JavaScript coerces to 32-bit integers.
The transcendental JS `Math` functions (`sqrt`, `cos`, `sin`, `tan`) and
the constant `Math.PI` are abstracted into a `MathInterp` record: every
embedded function is parametrised by an interpretation, and theorems that
depend on `sqrt` being a genuine square root state that as an explicit
hypothesis at the values where it is used.
-/

namespace DictatorBattle

/-! ### Rng.ts — mulberry32 seeded generator -/

/-- 2^32, the modulus of JavaScript 32-bit integer coercion. -/
def UINT32 : ℕ := 4294967296

/-- `Math.imul`: 32-bit integer multiply; at bit-pattern level this is
multiplication modulo 2^32. -/
def imul (a b : ℕ) : ℕ := (a * b) % UINT32

/-- `Rng.next` (Rng.ts:15-21): mulberry32 step.  The state is the 32-bit
bit pattern; returns the new state and the produced float in `[0,1)`
(exact, since mulberry32 outputs `k / 2^32` with `k : ℕ < 2^32`). -/
def rngNext (s0 : ℕ) : ℕ × ℚ :=
  let s := (s0 + 0x6d2b79f5) % UINT32
  let t1 := imul (Nat.xor s (s >>> 15)) (Nat.lor 1 s)
  let t2 := Nat.xor ((t1 + imul (Nat.xor t1 (t1 >>> 7)) (Nat.lor 61 t1)) % UINT32) t1
  let r := Nat.xor t2 (t2 >>> 14)
  (s, (r : ℚ) / (UINT32 : ℚ))

/-- `Rng.range(min,max)` (Rng.ts:24-26): `min + next() * (max - min)`. -/
def rngRange (s0 : ℕ) (lo hi : ℚ) : ℕ × ℚ :=
  let (s1, v) := rngNext s0
  (s1, lo + v * (hi - lo))

/-! ### Abstraction of JS `Math` transcendentals -/

/-- Interpretation of the transcendental pieces of JS `Math` used by the
engine.  Theorems constrain the fields pointwise where needed. -/
structure MathInterp where
  sqrt : ℚ → ℚ
  cos : ℚ → ℚ
  sin : ℚ → ℚ
  tan : ℚ → ℚ
  pi : ℚ

/-- Concrete square-root stand-in for witnesses: exact at the one
squared norm (`25`) that every concrete probe below is engineered to
hit. -/
def testSqrt (q : ℚ) : ℚ := if q = 25 then 5 else 0

/-- A concrete, executable interpretation used by witnesses and
counterexamples; the fields are total stand-ins whose values the
concrete probes are engineered to make exact where it matters. -/
def testInterp : MathInterp :=
  { sqrt := testSqrt
    cos := fun _ => 3/5
    sin := fun _ => 4/5
    tan := fun q => q
    pi := 355/113 }

/-! ### Vectors, entities, arena -/

structure Vec2 where
  x : ℚ
  y : ℚ
deriving DecidableEq

/-- `Entity` (physics body: position, velocity, radius). -/
structure Entity where
  pos : Vec2
  vel : Vec2
  radius : ℚ
deriving DecidableEq

/-- Squared Euclidean norm of a velocity vector. -/
def speedSq (v : Vec2) : ℚ := v.x * v.x + v.y * v.y

/-- `Entity.speed`: `Math.sqrt(vel.x² + vel.y²)`. -/
def Entity.speed (M : MathInterp) (e : Entity) : ℚ := M.sqrt (speedSq e.vel)

/-- `SimEntity` (Simulation.ts:15-20): body with a speed multiplier. -/
structure SimEntity where
  pos : Vec2
  vel : Vec2
  radius : ℚ
  speedMul : ℚ
deriving DecidableEq

/-- `SimArena` (Simulation.ts:22-26). -/
structure SimArena where
  left : ℚ
  right : ℚ
  top : ℚ
  bottom : ℚ
  centerX : ℚ
  centerY : ℚ
deriving DecidableEq

/-! ### Entity methods (Entity class) -/

/-- `Entity.normalizeSpeed(targetSpeed)`: no-op below the `0.0001` speed
guard, otherwise rescale the velocity to the target speed. -/
def Entity.normalizeSpeed (M : MathInterp) (e : Entity) (targetSpeed : ℚ) : Entity :=
  let s := e.speed M
  if s < 1/10000 then e
  else { e with vel := ⟨e.vel.x / s * targetSpeed, e.vel.y / s * targetSpeed⟩ }

/-! ### Physics module (integrateEntity, bounceWalls, bounceEntities) -/

/-- `integrateEntity(entity, dt)`: `position += velocity * dt`. -/
def integrateEntity (e : Entity) (dt : ℚ) : Entity :=
  { e with pos := ⟨e.pos.x + e.vel.x * dt, e.pos.y + e.vel.y * dt⟩ }

/-- Arena interface used by the standalone physics module: `left`,
`right`, `top`, `bottom` bounds (Arena.ts getters). -/
structure ArenaBounds where
  left : ℚ
  right : ℚ
  top : ℚ
  bottom : ℚ
deriving DecidableEq

/-- `bounceWalls(entity, arena)`: per axis, if the leading edge crossed a
bound, clamp the position to bound ± radius and set that velocity
component to point back into the arena (`Math.abs` for left/top,
`-Math.abs` for right/bottom); `else if` on the second bound of each
axis. -/
def bounceWalls (e : Entity) (a : ArenaBounds) : Entity :=
  let r := e.radius
  let e1 :=
    if e.pos.x - r < a.left then
      { e with pos := ⟨a.left + r, e.pos.y⟩, vel := ⟨|e.vel.x|, e.vel.y⟩ }
    else if e.pos.x + r > a.right then
      { e with pos := ⟨a.right - r, e.pos.y⟩, vel := ⟨-|e.vel.x|, e.vel.y⟩ }
    else e
  if e1.pos.y - r < a.top then
    { e1 with pos := ⟨e1.pos.x, a.top + r⟩, vel := ⟨e1.vel.x, |e1.vel.y|⟩ }
  else if e1.pos.y + r > a.bottom then
    { e1 with pos := ⟨e1.pos.x, a.bottom - r⟩, vel := ⟨e1.vel.x, -|e1.vel.y|⟩ }
  else e1

/-- `bounceEntities(a, b)` (Physics module): symmetric push-out by half
the overlap along the collision normal, plus removal of the approaching
normal velocity component when closing; returns whether a collision
resolved. -/
def bounceEntitiesB (M : MathInterp) (a b : Entity) : Entity × Entity × Bool :=
  let dx := b.pos.x - a.pos.x
  let dy := b.pos.y - a.pos.y
  let dist := M.sqrt (dx * dx + dy * dy)
  let minDist := a.radius + b.radius
  if dist ≥ minDist ∨ dist < 1/10000 then (a, b, false)
  else
    let overlap := minDist - dist
    let nx := dx / dist
    let ny := dy / dist
    let a1 := { a with pos := ⟨a.pos.x - nx * overlap * (1/2), a.pos.y - ny * overlap * (1/2)⟩ }
    let b1 := { b with pos := ⟨b.pos.x + nx * overlap * (1/2), b.pos.y + ny * overlap * (1/2)⟩ }
    let relVx := a1.vel.x - b1.vel.x
    let relVy := a1.vel.y - b1.vel.y
    let dot := relVx * nx + relVy * ny
    if dot > 0 then
      let a2 := { a1 with vel := ⟨a1.vel.x - dot * nx, a1.vel.y - dot * ny⟩ }
      let b2 := { b1 with vel := ⟨b1.vel.x + dot * nx, b1.vel.y + dot * ny⟩ }
      (a2, b2, true)
    else (a1, b1, true)

/-! ### Ai.ts — steering with turn-rate cap -/

/-- `TURN_RATE_CAP` (Ai.ts): radians per second max turn. -/
def TURN_RATE_CAP : ℚ := 3

/-- `MAX_KNIFE_SEEK_IMPULSE` (Ai.ts). -/
def MAX_KNIFE_SEEK_IMPULSE : ℚ := 200

/-- `Math.sign`. -/
def jsSign (q : ℚ) : ℚ := if q > 0 then 1 else if q < 0 then -1 else 0

/-- `applyImpulse(entity, ix, iy, dt, impulseMul)` (Ai.ts:12-32): add the
scaled impulse to the velocity, then — if the *post-impulse* speed is
above `0.001` and the component of the added velocity perpendicular to
the *post-impulse* direction exceeds `speed * tan(TURN_RATE_CAP * dt)` —
replace the added impulse by the whole impulse scaled by
`clamp / perpComp`. -/
def applyImpulse (M : MathInterp) (e : Entity) (ix iy dt impulseMul : ℚ) : Entity :=
  let scaledX := ix * impulseMul * dt
  let scaledY := iy * impulseMul * dt
  let v1 : Vec2 := ⟨e.vel.x + scaledX, e.vel.y + scaledY⟩
  let spd := M.sqrt (speedSq v1)
  if spd > 1/1000 then
    let maxDelta := spd * M.tan (TURN_RATE_CAP * dt)
    let nx := v1.x / spd
    let ny := v1.y / spd
    let perpComp := scaledX * (-ny) + scaledY * nx
    if |perpComp| > maxDelta then
      let clamp := maxDelta * jsSign perpComp
      let factor := clamp / perpComp
      { e with vel := ⟨v1.x - scaledX + scaledX * factor,
                       v1.y - scaledY + scaledY * factor⟩ }
    else { e with vel := v1 }
  else { e with vel := v1 }

/-! ### OutcomeController.ts -/

/-- `BiasParams` (OutcomeController.ts:3-20). -/
structure BiasParams where
  knifeAttractionWin : ℚ
  knifeAttractionLose : ℚ
  hunterBonusWin : ℚ
  hunterPenaltyLose : ℚ
  runnerBonusWin : ℚ
  runnerPenaltyLose : ℚ
  speedBonusWin : ℚ
  speedPenaltyLose : ℚ
deriving DecidableEq

/-- `DEFAULT_BIAS` (OutcomeController.ts:22-31). -/
def DEFAULT_BIAS : BiasParams :=
  { knifeAttractionWin := 60
    knifeAttractionLose := -40
    hunterBonusWin := 1/10
    hunterPenaltyLose := -1/10
    runnerBonusWin := 1/10
    runnerPenaltyLose := -1/10
    speedBonusWin := 3/100
    speedPenaltyLose := -3/100 }

/-- `OutcomeController` state: configured win chance, bias parameters,
and the per-round sampled target. -/
structure OutcomeController where
  winChance : ℚ
  bias : BiasParams
  targetWin : Bool
deriving DecidableEq

/-- The constructor (OutcomeController.ts:45-48): stores `winChance`
*unclamped*; `targetWin` initialized to `false`. -/
def OutcomeController.create (winChance : ℚ) (bias : BiasParams) : OutcomeController :=
  { winChance := winChance, bias := bias, targetWin := false }

/-- `setWinChance(p)` (OutcomeController.ts:50-52):
`Math.max(0, Math.min(1, p))`. -/
def OutcomeController.setWinChance (oc : OutcomeController) (p : ℚ) : OutcomeController :=
  { oc with winChance := max 0 (min 1 p) }

/-- `sampleOutcome(rng)` (OutcomeController.ts:55-60):
`targetWin = rng.next() < winChance`. -/
def OutcomeController.sampleOutcome (oc : OutcomeController) (s : ℕ) :
    OutcomeController × ℕ :=
  let (s1, v) := rngNext s
  ({ oc with targetWin := decide (v < oc.winChance) }, s1)

/-- `knifeAttractionStrength()` (OutcomeController.ts:66-70). -/
def OutcomeController.knifeAttractionStrength (oc : OutcomeController) : ℚ :=
  if oc.targetWin then oc.bias.knifeAttractionWin else oc.bias.knifeAttractionLose

/-- `steeringMultiplier(isHunter)` (OutcomeController.ts:76-82). -/
def OutcomeController.steeringMultiplier (oc : OutcomeController) (isHunter : Bool) : ℚ :=
  if isHunter then
    1 + (if oc.targetWin then oc.bias.hunterBonusWin else oc.bias.hunterPenaltyLose)
  else
    1 + (if oc.targetWin then oc.bias.runnerBonusWin else oc.bias.runnerPenaltyLose)

/-- `speedMultiplier()` (OutcomeController.ts:87-89). -/
def OutcomeController.speedMultiplier (oc : OutcomeController) : ℚ :=
  1 + (if oc.targetWin then oc.bias.speedBonusWin else oc.bias.speedPenaltyLose)

/-! ### Simulation.ts — headless round simulation -/

namespace Sim

/-- Constants (Simulation.ts:29-37; the comment there says they "must
match Game.ts"). -/
def BASE_SPEED : ℚ := 120

def CHASE_SPEED_MUL : ℚ := 2

def PREWAIT_DURATION : ℚ := 1

def PREKNIFE_DURATION : ℚ := 3

def CHASE_DURATION : ℚ := 10

def BALL_RADIUS : ℚ := 28

def KNIFE_RADIUS : ℚ := 20

def FIXED_DT : ℚ := 1/60

def ARENA_SIZE : ℚ := 520

/-- `integrate` (Simulation.ts:40-43). -/
def integrate (e : SimEntity) (dt : ℚ) : SimEntity :=
  { e with pos := ⟨e.pos.x + e.vel.x * dt, e.pos.y + e.vel.y * dt⟩ }

/-- `bounceWalls` (Simulation.ts:45-51): same algorithm as the physics
module version, on `SimEntity`. -/
def bounceWalls (e : SimEntity) (a : SimArena) : SimEntity :=
  let r := e.radius
  let e1 :=
    if e.pos.x - r < a.left then
      { e with pos := ⟨a.left + r, e.pos.y⟩, vel := ⟨|e.vel.x|, e.vel.y⟩ }
    else if e.pos.x + r > a.right then
      { e with pos := ⟨a.right - r, e.pos.y⟩, vel := ⟨-|e.vel.x|, e.vel.y⟩ }
    else e
  if e1.pos.y - r < a.top then
    { e1 with pos := ⟨e1.pos.x, a.top + r⟩, vel := ⟨e1.vel.x, |e1.vel.y|⟩ }
  else if e1.pos.y + r > a.bottom then
    { e1 with pos := ⟨e1.pos.x, a.bottom - r⟩, vel := ⟨e1.vel.x, -|e1.vel.y|⟩ }
  else e1

/-- `bounceEntities` (Simulation.ts:53-66): void variant of the physics
module collision response. -/
def bounceEntities (M : MathInterp) (a b : SimEntity) : SimEntity × SimEntity :=
  let dx := b.pos.x - a.pos.x
  let dy := b.pos.y - a.pos.y
  let dist := M.sqrt (dx * dx + dy * dy)
  let minDist := a.radius + b.radius
  if dist ≥ minDist ∨ dist < 1/10000 then (a, b)
  else
    let overlap := minDist - dist
    let nx := dx / dist
    let ny := dy / dist
    let a1 := { a with pos := ⟨a.pos.x - nx * overlap * (1/2), a.pos.y - ny * overlap * (1/2)⟩ }
    let b1 := { b with pos := ⟨b.pos.x + nx * overlap * (1/2), b.pos.y + ny * overlap * (1/2)⟩ }
    let relVx := a1.vel.x - b1.vel.x
    let relVy := a1.vel.y - b1.vel.y
    let dot := relVx * nx + relVy * ny
    if dot > 0 then
      ({ a1 with vel := ⟨a1.vel.x - dot * nx, a1.vel.y - dot * ny⟩ },
       { b1 with vel := ⟨b1.vel.x + dot * nx, b1.vel.y + dot * ny⟩ })
    else (a1, b1)

/-- `dist2D` (Simulation.ts:68-70). -/
def dist2D (M : MathInterp) (a b : Vec2) : ℚ :=
  M.sqrt ((a.x - b.x) ^ 2 + (a.y - b.y) ^ 2)

/-- `normSpeed` (Simulation.ts:72-76). -/
def normSpeed (M : MathInterp) (e : SimEntity) (speed : ℚ) : SimEntity :=
  let s := M.sqrt (e.vel.x * e.vel.x + e.vel.y * e.vel.y)
  if s < 1/10000 then e
  else { e with vel := ⟨e.vel.x / s * speed, e.vel.y / s * speed⟩ }

/-- `wanderImpulse` (Simulation.ts:79-84); threads the RNG state. -/
def wanderImpulse (M : MathInterp) (e : SimEntity) (s : ℕ) (dt mul : ℚ) :
    SimEntity × ℕ :=
  let (s1, a) := rngRange s 0 (M.pi * 2)
  let (s2, mag0) := rngRange s1 0 80
  let mag := mag0 * mul
  ({ e with vel := ⟨e.vel.x + M.cos a * mag * dt, e.vel.y + M.sin a * mag * dt⟩ }, s2)

/-- `hunterImpulse` (Simulation.ts:86-93). -/
def hunterImpulse (M : MathInterp) (hunter target : SimEntity) (dt mul : ℚ) :
    SimEntity :=
  let dx := target.pos.x - hunter.pos.x
  let dy := target.pos.y - hunter.pos.y
  let d := M.sqrt (dx * dx + dy * dy)
  if d < 1/1000 then hunter
  else { hunter with vel := ⟨hunter.vel.x + dx / d * 200 * mul * dt,
                             hunter.vel.y + dy / d * 200 * mul * dt⟩ }

/-- `runnerImpulse` (Simulation.ts:95-105); draws the perpendicular
jitter from the RNG after the distance guard. -/
def runnerImpulse (M : MathInterp) (runner pursuer : SimEntity) (s : ℕ)
    (dt mul : ℚ) : SimEntity × ℕ :=
  let dx := runner.pos.x - pursuer.pos.x
  let dy := runner.pos.y - pursuer.pos.y
  let d := M.sqrt (dx * dx + dy * dy)
  if d < 1/1000 then (runner, s)
  else
    let (s1, perp) := rngRange s (-2/5) (2/5)
    let ex := dx / d + (-dy / d) * perp
    let ey := dy / d + dx / d * perp
    ({ runner with vel := ⟨runner.vel.x + ex * 200 * mul * dt,
                           runner.vel.y + ey * 200 * mul * dt⟩ }, s1)

/-- `centerAttract` (Simulation.ts:107-113). -/
def centerAttract (M : MathInterp) (e : SimEntity) (cx cy dt strength : ℚ) :
    SimEntity :=
  let dx := cx - e.pos.x
  let dy := cy - e.pos.y
  let d := M.sqrt (dx * dx + dy * dy)
  if d < 1/1000 then e
  else { e with vel := ⟨e.vel.x + dx / d * strength * dt,
                        e.vel.y + dy / d * strength * dt⟩ }

/-- Mutable locals of the `simulateRound` loop (Simulation.ts:126-158),
plus the threaded RNG state.  The source locals `phaseTimer` and
`preknifeDone` are declared but never read and are omitted. -/
structure RoundState where
  ePlayer : SimEntity
  eOpponent : SimEntity
  knifePickedUp : Bool
  playerIsHunter : Bool
  chaseTimer : ℚ
  knifeSpawned : Bool
  prewaitDone : Bool
  prewaitTimer : ℚ
  preknifeDone2Timer : ℚ
  rng : ℕ
deriving DecidableEq

/-- The phase-dependent part of one `simulateRound` loop iteration
(Simulation.ts:160-214).  `Sum.inl b` is an early `return b`. -/
def simPhaseStep (M : MathInterp) (oc : OutcomeController) (cx cy : ℚ)
    (st : RoundState) : Bool ⊕ RoundState :=
  let dt := FIXED_DT
  if !st.prewaitDone then
    let prewaitTimer := st.prewaitTimer - dt
    let w1 := wanderImpulse M st.ePlayer st.rng dt (1/2)
    let w2 := wanderImpulse M st.eOpponent w1.2 dt (1/2)
    Sum.inr { st with ePlayer := w1.1, eOpponent := w2.1, prewaitTimer,
                      prewaitDone := decide (prewaitTimer ≤ 0), rng := w2.2 }
  else if !st.knifeSpawned then
    let preknifeDone2Timer := st.preknifeDone2Timer - dt
    let w1 := wanderImpulse M st.ePlayer st.rng dt 1
    let w2 := wanderImpulse M st.eOpponent w1.2 dt 1
    Sum.inr { st with ePlayer := w1.1, eOpponent := w2.1, preknifeDone2Timer,
                      knifeSpawned := decide (preknifeDone2Timer ≤ 0), rng := w2.2 }
  else if !st.knifePickedUp then
    let knifeAttr := oc.knifeAttractionStrength
    let eP0 := centerAttract M st.ePlayer cx cy dt knifeAttr
    let w1 := wanderImpulse M eP0 st.rng dt (4/5)
    let w2 := wanderImpulse M st.eOpponent w1.2 dt (4/5)
    let ePlayer := w1.1
    let eOpponent := w2.1
    let dpA := dist2D M ePlayer.pos ⟨cx, cy⟩
    let dpB := dist2D M eOpponent.pos ⟨cx, cy⟩
    let pickupRadius := BALL_RADIUS + KNIFE_RADIUS
    if dpA ≤ pickupRadius ∨ dpB ≤ pickupRadius then
      let playerIsHunter := decide (dpA < dpB)
      let chaseSpeed := BASE_SPEED * CHASE_SPEED_MUL
      let eP1 := { ePlayer with speedMul := oc.speedMultiplier }
      let eP2 := normSpeed M eP1 (chaseSpeed * eP1.speedMul)
      let eO2 := normSpeed M eOpponent chaseSpeed
      Sum.inr { st with ePlayer := eP2, eOpponent := eO2, knifePickedUp := true,
                        playerIsHunter, rng := w2.2 }
    else
      Sum.inr { st with ePlayer, eOpponent, rng := w2.2 }
  else
    let chaseTimer := st.chaseTimer - dt
    let isPlayerHunter := st.playerIsHunter
    let playerSteerMul := oc.steeringMultiplier isPlayerHunter
    let hunter0 := if isPlayerHunter then st.ePlayer else st.eOpponent
    let runner0 := if isPlayerHunter then st.eOpponent else st.ePlayer
    let hunterMul := if isPlayerHunter then playerSteerMul else 1
    let runnerMul := if !isPlayerHunter then playerSteerMul else 1
    let hunter1 := hunterImpulse M hunter0 runner0 dt hunterMul
    let rr := runnerImpulse M runner0 hunter1 st.rng dt runnerMul
    let hunter := normSpeed M hunter1 (BASE_SPEED * CHASE_SPEED_MUL * hunter1.speedMul)
    let runner := normSpeed M rr.1 (BASE_SPEED * CHASE_SPEED_MUL * rr.1.speedMul)
    let d := dist2D M hunter.pos runner.pos
    if d ≤ hunter.radius + runner.radius then Sum.inl st.playerIsHunter
    else if chaseTimer ≤ 0 then Sum.inl (!st.playerIsHunter)
    else
      let ePlayer := if isPlayerHunter then hunter else runner
      let eOpponent := if isPlayerHunter then runner else hunter
      Sum.inr { st with ePlayer, eOpponent, chaseTimer, rng := rr.2 }

/-- The unconditional speed renormalization that ends every loop
iteration (Simulation.ts:217-218), executed just before `integrate`. -/
def simPreIntegrate (M : MathInterp) (st : RoundState) : RoundState :=
  { st with ePlayer := normSpeed M st.ePlayer (BASE_SPEED * st.ePlayer.speedMul),
            eOpponent := normSpeed M st.eOpponent BASE_SPEED }

/-- Integration and bounces ending every loop iteration
(Simulation.ts:217-223). -/
def simPostPhase (M : MathInterp) (arena : SimArena) (st : RoundState) :
    RoundState :=
  let st1 := simPreIntegrate M st
  let ePlayer := integrate st1.ePlayer FIXED_DT
  let eOpponent := integrate st1.eOpponent FIXED_DT
  let ePlayer := bounceWalls ePlayer arena
  let eOpponent := bounceWalls eOpponent arena
  let (ePlayer, eOpponent) := bounceEntities M ePlayer eOpponent
  { st1 with ePlayer, eOpponent }

/-- One full iteration of the `simulateRound` tick loop. -/
def simTick (M : MathInterp) (oc : OutcomeController) (arena : SimArena)
    (st : RoundState) : Bool ⊕ RoundState :=
  match simPhaseStep M oc arena.centerX arena.centerY st with
  | Sum.inl b => Sum.inl b
  | Sum.inr st1 => Sum.inr (simPostPhase M arena st1)

/-- `MAX_TICKS` (Simulation.ts:157). -/
def MAX_TICKS : ℕ :=
  ((PREWAIT_DURATION + PREKNIFE_DURATION + CHASE_DURATION + 5) / FIXED_DT).ceil.toNat

/-- Run up to `n` ticks, stopping at an early `return`. -/
def runTicks (M : MathInterp) (oc : OutcomeController) (arena : SimArena) :
    ℕ → RoundState → Bool ⊕ RoundState
  | 0, st => Sum.inr st
  | n + 1, st =>
    match simTick M oc arena st with
    | Sum.inl b => Sum.inl b
    | Sum.inr st1 => runTicks M oc arena n st1

/-- Round setup (Simulation.ts:116-157): sample the outcome, build both
entities, draw the two launch angles.  RNG consumption order:
`sampleOutcome`, `a1`, then the `a2` jitter. -/
def initRound (M : MathInterp) (seed : ℕ) (winChance : ℚ) (arena : SimArena) :
    OutcomeController × RoundState :=
  let oc0 := OutcomeController.create winChance DEFAULT_BIAS
  let (oc, s1) := oc0.sampleOutcome (seed % UINT32)
  let cx := arena.centerX
  let cy := arena.centerY
  let sep := BALL_RADIUS * 3
  let (s2, a1) := rngRange s1 0 (M.pi * 2)
  let (s3, da) := rngRange s2 (-1/2) (1/2)
  let a2 := a1 + M.pi + da
  let ePlayer : SimEntity :=
    { pos := ⟨cx - sep, cy⟩
      vel := ⟨M.cos a1 * BASE_SPEED, M.sin a1 * BASE_SPEED⟩
      radius := BALL_RADIUS
      speedMul := oc.speedMultiplier }
  let eOpponent : SimEntity :=
    { pos := ⟨cx + sep, cy⟩
      vel := ⟨M.cos a2 * BASE_SPEED, M.sin a2 * BASE_SPEED⟩
      radius := BALL_RADIUS
      speedMul := 1 }
  (oc, { ePlayer, eOpponent, knifePickedUp := false, playerIsHunter := false,
         chaseTimer := CHASE_DURATION, knifeSpawned := false,
         prewaitDone := false, prewaitTimer := PREWAIT_DURATION,
         preknifeDone2Timer := PREKNIFE_DURATION, rng := s3 })

/-- The tick-loop state after `n` ticks of a round started from `seed`
with win probability `winChance` (early result as `Sum.inl`). -/
def roundStateAfter (M : MathInterp) (seed : ℕ) (winChance : ℚ)
    (arena : SimArena) (n : ℕ) : Bool ⊕ RoundState :=
  let (oc, st0) := initRound M seed winChance arena
  runTicks M oc arena n st0

/-- `simulateRound` (Simulation.ts:116-228) for a fresh `Rng(seed)` and a
fresh controller with the given win probability: the boolean result, with
the timeout fallback `!playerIsHunter`. -/
def simulateRoundFromSeed (M : MathInterp) (seed : ℕ) (winChance : ℚ)
    (arena : SimArena) : Bool :=
  match roundStateAfter M seed winChance arena MAX_TICKS with
  | Sum.inl b => b
  | Sum.inr st => !st.playerIsHunter

/-- The arena built by `runSimulation` (Simulation.ts:249-253). -/
def defaultArena : SimArena :=
  { left := 0, right := ARENA_SIZE, top := 0, bottom := ARENA_SIZE,
    centerX := ARENA_SIZE / 2, centerY := ARENA_SIZE / 2 }

/-- The phase/timer component of the `simulateRound` loop: the
prewait/preknife timers of Simulation.ts:162-171.  These fields evolve
independently of the entities and of the RNG, so this is an exact
projection of the loop up to the knife spawn (`projTimers` lemmas
below tie it to the full step). -/
structure PhaseTimers where
  prewaitDone : Bool
  knifeSpawned : Bool
  prewaitTimer : ℚ
  preknifeDone2Timer : ℚ
deriving DecidableEq

/-- One tick of the timer projection (Simulation.ts:162-171; ticks in the
knife-race and chase phases leave these fields unchanged). -/
def phaseTimerStep (s : PhaseTimers) : PhaseTimers :=
  if !s.prewaitDone then
    let t := s.prewaitTimer - FIXED_DT
    { s with prewaitTimer := t, prewaitDone := decide (t ≤ 0) }
  else if !s.knifeSpawned then
    let t := s.preknifeDone2Timer - FIXED_DT
    { s with preknifeDone2Timer := t, knifeSpawned := decide (t ≤ 0) }
  else s

/-- Timer state at round start (Simulation.ts:152-155). -/
def initPhaseTimers : PhaseTimers :=
  ⟨false, false, PREWAIT_DURATION, PREKNIFE_DURATION⟩

/-- Whether the headless round has spawned the knife after `n` ticks. -/
def knifeSpawnedAfter (n : ℕ) : Bool :=
  (phaseTimerStep^[n] initPhaseTimers).knifeSpawned

/-- Projection of the full loop state onto the timer component. -/
def projTimers (st : RoundState) : PhaseTimers :=
  ⟨st.prewaitDone, st.knifeSpawned, st.prewaitTimer, st.preknifeDone2Timer⟩

end Sim

/-! ### Game.ts — interactive round, phase/timer component -/

namespace Game

/-- `PREWAIT_DURATION` (Game.ts:27). -/
def PREWAIT_DURATION : ℚ := 1

/-- `PREKNIFE_DURATION` (Game.ts:28): `1.5`, while Simulation.ts uses
`3.0` under a comment claiming the constants must match. -/
def PREKNIFE_DURATION : ℚ := 3/2

/-- `CHASE_DURATION` (Game.ts:29). -/
def CHASE_DURATION : ℚ := 10

/-- `FIXED_DT` (Game.ts:30). -/
def FIXED_DT : ℚ := 1/60

/-- Game phases up to the knife spawn (Game.ts phase tags). -/
inductive Phase where
  | prewait
  | preknife
  | kniferace
deriving DecidableEq

structure PhaseState where
  phase : Phase
  phaseTimer : ℚ
deriving DecidableEq

/-- Phase/timer component of one fixed-step `Game._tick` before the
chase: `_tickPrewait` (timer -= dt; on expiry phase := preknife with
timer := PREKNIFE_DURATION) and `_tickPreknife` (timer -= dt; on expiry
`_spawnKnife` sets phase := kniferace).  These fields evolve
independently of the dictators' positions, steering and RNG, so this is
an exact projection of the interactive loop up to the knife spawn. -/
def phaseStep (s : PhaseState) : PhaseState :=
  match s.phase with
  | Phase.prewait =>
    let t := s.phaseTimer - FIXED_DT
    if t ≤ 0 then ⟨Phase.preknife, PREKNIFE_DURATION⟩ else ⟨Phase.prewait, t⟩
  | Phase.preknife =>
    let t := s.phaseTimer - FIXED_DT
    if t ≤ 0 then ⟨Phase.kniferace, t⟩ else ⟨Phase.preknife, t⟩
  | Phase.kniferace => s

/-- Phase state as `_startRound` leaves it (Game.ts:210-211). -/
def initPhase : PhaseState := ⟨Phase.prewait, PREWAIT_DURATION⟩

def phaseAfter (n : ℕ) : PhaseState := phaseStep^[n] initPhase

/-- Whether the interactive round is in the knife-race phase after `n`
fixed ticks. -/
def inKnifeRaceAfter (n : ℕ) : Bool :=
  decide ((phaseAfter n).phase = Phase.kniferace)

end Game

/-! ### Concrete probe inputs for counterexamples and witnesses -/

/-- A controller that sampled `targetWin = true` with the default bias. -/
def probeOcWin : OutcomeController := ⟨1/2, DEFAULT_BIAS, true⟩

/-- A chase-phase loop state of `simulateRound` as the chase branch
leaves it: the player is the hunter with velocity `(3,4)` (norm 5) and a
speed multiplier of `1/48`, chosen so that the chase-branch target
`BASE_SPEED * CHASE_SPEED_MUL * speedMul = 240/48 = 5` equals the
current speed exactly. -/
def c4ProbeState : Sim.RoundState :=
  { ePlayer := ⟨⟨100, 60⟩, ⟨3, 4⟩, 28, 1/48⟩
    eOpponent := ⟨⟨400, 460⟩, ⟨0, 0⟩, 28, 1⟩
    knifePickedUp := true
    playerIsHunter := true
    chaseTimer := 599/60
    knifeSpawned := true
    prewaitDone := true
    prewaitTimer := 0
    preknifeDone2Timer := 0
    rng := 1 }

/-- Entity for the `applyImpulse` probe: velocity `(2,2)`; the proposed
impulse `(60,120)` at `dt = 1/60` scales to `(1,2)`, giving post-impulse
velocity `(3,4)` of exact speed `5`. -/
def c5Entity : Entity := ⟨⟨100, 100⟩, ⟨2, 2⟩, 28⟩

/-- Entity overlapping the left wall (`pos.x - radius = -18 < 0`) while
moving right (inward). -/
def c6Entity : Entity := ⟨⟨10, 100⟩, ⟨5, 0⟩, 28⟩

def c6Bounds : ArenaBounds := ⟨0, 520, 0, 520⟩

/-- Same overlap with the left wall, but moving left (outward). -/
def c6EntityOut : Entity := ⟨⟨10, 100⟩, ⟨-5, 0⟩, 28⟩

/-- Overlapping pair at center distance 5 with radii 3+3 = 6. -/
def c7A : Entity := ⟨⟨0, 0⟩, ⟨0, 0⟩, 3⟩

def c7B : Entity := ⟨⟨3, 4⟩, ⟨0, 0⟩, 3⟩

/-- Squared center distance of two entities. -/
def sepSq (a b : Entity) : ℚ :=
  (b.pos.x - a.pos.x) ^ 2 + (b.pos.y - a.pos.y) ^ 2

/-- Entity at distance 5 from the arena center `(260,260)`, at rest,
for the knife-phase bias probe. -/
def c8Entity : SimEntity := ⟨⟨257, 256⟩, ⟨0, 0⟩, 28, 1⟩

/-- Entity with velocity `(3,4)` (speed 5) for the `normalizeSpeed`
probes. -/
def c10Entity : Entity := ⟨⟨0, 0⟩, ⟨3, 4⟩, 28⟩

/-- `SimEntity` twin of `c10Entity` for the `normSpeed` half of the
claim. -/
def c10SimEntity : SimEntity := ⟨⟨0, 0⟩, ⟨3, 4⟩, 28, 1⟩

/-! ## Theorems -/

/-! ### Supporting lemmas: the timer projection is exact -/

/-- The post-phase physics (renormalize, integrate, bounce) does not
touch the phase flags or the timers. -/
theorem projTimers_simPostPhase (M : MathInterp) (arena : SimArena)
    (st : Sim.RoundState) :
    Sim.projTimers (Sim.simPostPhase M arena st) = Sim.projTimers st := rfl

/-- One non-returning phase step advances the timer projection by
exactly one `phaseTimerStep`. -/
theorem projTimers_simPhaseStep {M : MathInterp} {oc : OutcomeController}
    {cx cy : ℚ} {st st1 : Sim.RoundState}
    (h : Sim.simPhaseStep M oc cx cy st = Sum.inr st1) :
    Sim.projTimers st1 = Sim.phaseTimerStep (Sim.projTimers st) := by
  unfold Sim.simPhaseStep at h
  split at h
  next hc1 =>
    injection h with h
    subst h
    simp [Sim.projTimers, Sim.phaseTimerStep, hc1]
  next hc1 =>
  split at h
  next hc2 =>
    injection h with h
    subst h
    simp [Sim.projTimers, Sim.phaseTimerStep, hc1, hc2]
  next hc2 =>
  split at h
  next hc3 =>
    simp only [] at h
    repeat' split at h
    all_goals
      first
        | exact Sum.noConfusion h
        | (injection h with h; subst h;
           simp [Sim.projTimers, Sim.phaseTimerStep, hc1, hc2])
  next hc3 =>
    simp only [] at h
    repeat' split at h
    all_goals
      first
        | exact Sum.noConfusion h
        | (injection h with h; subst h;
           simp [Sim.projTimers, Sim.phaseTimerStep, hc1, hc2])

/-- One non-returning tick of the full loop advances the timer
projection by exactly one `phaseTimerStep`. -/
theorem projTimers_simTick {M : MathInterp} {oc : OutcomeController}
    {arena : SimArena} {st st1 : Sim.RoundState}
    (h : Sim.simTick M oc arena st = Sum.inr st1) :
    Sim.projTimers st1 = Sim.phaseTimerStep (Sim.projTimers st) := by
  unfold Sim.simTick at h
  rcases heq : Sim.simPhaseStep M oc arena.centerX arena.centerY st with b | st2
  · rw [heq] at h
    cases h
  · rw [heq] at h
    injection h with h
    subst h
    rw [projTimers_simPostPhase]
    exact projTimers_simPhaseStep heq

/-- Over a run of the loop that has not early-returned, the timer
projection is the `n`-fold iterate of `phaseTimerStep`. -/
theorem projTimers_runTicks (M : MathInterp) (oc : OutcomeController)
    (arena : SimArena) :
    ∀ (n : ℕ) (st st1 : Sim.RoundState),
      Sim.runTicks M oc arena n st = Sum.inr st1 →
      Sim.projTimers st1 = Sim.phaseTimerStep^[n] (Sim.projTimers st)
  | 0, st, st1, h => by
    injection h with h
    subst h
    rfl
  | n + 1, st, st1, h => by
    rw [Sim.runTicks] at h
    rcases heq : Sim.simTick M oc arena st with b | st2
    · rw [heq] at h
      cases h
    · rw [heq] at h
      rw [Function.iterate_succ_apply, ← projTimers_simTick heq]
      exact projTimers_runTicks M oc arena n st2 st1 h

/-- A round that has not early-returned after `n` ticks has
`knifeSpawned` given exactly by the timer projection. -/
theorem knifeSpawned_roundStateAfter (M : MathInterp) (seed : ℕ)
    (winChance : ℚ) (arena : SimArena) (n : ℕ) (st1 : Sim.RoundState)
    (h : Sim.roundStateAfter M seed winChance arena n = Sum.inr st1) :
    st1.knifeSpawned = Sim.knifeSpawnedAfter n := by
  unfold Sim.roundStateAfter at h
  have := projTimers_runTicks M (Sim.initRound M seed winChance arena).1 arena n
    (Sim.initRound M seed winChance arena).2 st1 h
  have hinit : Sim.projTimers (Sim.initRound M seed winChance arena).2 =
      Sim.initPhaseTimers := rfl
  rw [hinit] at this
  have : st1.knifeSpawned = (Sim.phaseTimerStep^[n] Sim.initPhaseTimers).knifeSpawned :=
    congrArg Sim.PhaseTimers.knifeSpawned this
  exact this

/-! ### C2 — interactive vs headless phase schedules -/

/-- C2: the interactive path (Game.ts) and the headless path
(Simulation.ts) do NOT keep identical per-tick state: Simulation.ts uses
`PREKNIFE_DURATION = 3.0` while Game.ts uses `1.5` (despite the source
comment that the constants must match), so after 200 fixed ticks the
interactive round is already in the knife-race phase while the headless
round has not yet spawned the knife; the headless knife spawn happens at
tick 240, the interactive one at tick 150. -/
theorem preknife_schedule_mismatch :
    Sim.PREKNIFE_DURATION ≠ Game.PREKNIFE_DURATION ∧
    Sim.knifeSpawnedAfter 200 = false ∧
    Game.inKnifeRaceAfter 200 = true ∧
    Sim.knifeSpawnedAfter 239 = false ∧
    Sim.knifeSpawnedAfter 240 = true ∧
    Game.inKnifeRaceAfter 149 = false ∧
    Game.inKnifeRaceAfter 150 = true := by
  set_option maxRecDepth 100000 in with_unfolding_all decide

/-! ### C3 — determinism of `simulateRound` -/

/-- C3: two executions of the headless round from equal seeds, with the
same win probability, arena and `Math` interpretation, have identical
loop states after every number of ticks (hence bit-identical phase
flags and trajectories) and the same boolean result. -/
theorem simulateRound_deterministic (M : MathInterp) (winChance : ℚ)
    (arena : SimArena) (s1 s2 : ℕ) (h : s1 = s2) (n : ℕ) :
    Sim.roundStateAfter M s1 winChance arena n =
      Sim.roundStateAfter M s2 winChance arena n ∧
    Sim.simulateRoundFromSeed M s1 winChance arena =
      Sim.simulateRoundFromSeed M s2 winChance arena := by
  subst h
  exact ⟨rfl, rfl⟩

/-- Witness for C3 at seed 42, win probability 1/2, the default arena,
7 ticks. -/
theorem simulateRound_deterministic_witness :
    (42 = 42) ∧
    (Sim.roundStateAfter testInterp 42 (1/2) Sim.defaultArena 7 =
       Sim.roundStateAfter testInterp 42 (1/2) Sim.defaultArena 7 ∧
     Sim.simulateRoundFromSeed testInterp 42 (1/2) Sim.defaultArena =
       Sim.simulateRoundFromSeed testInterp 42 (1/2) Sim.defaultArena) :=
  ⟨rfl, simulateRound_deterministic testInterp (1/2) Sim.defaultArena 42 42 rfl 7⟩

/-! ### C4 — speed at the moment of integration during the chase -/

/-- `normSpeed` never moves the entity. -/
theorem normSpeed_pos (M : MathInterp) (e : SimEntity) (sp : ℚ) :
    (Sim.normSpeed M e sp).pos = e.pos := by
  simp only [Sim.normSpeed]
  split <;> rfl

/-- `normSpeed` keeps the radius. -/
theorem normSpeed_radius (M : MathInterp) (e : SimEntity) (sp : ℚ) :
    (Sim.normSpeed M e sp).radius = e.radius := by
  simp only [Sim.normSpeed]
  split <;> rfl

/-- `normSpeed` keeps the speed multiplier. -/
theorem normSpeed_speedMul (M : MathInterp) (e : SimEntity) (sp : ℚ) :
    (Sim.normSpeed M e sp).speedMul = e.speedMul := by
  simp only [Sim.normSpeed]
  split <;> rfl

/-- C4: the speed at which the player is integrated during the chase is
`BASE_SPEED * speedMul` (120 × speedMul), not
`BASE_SPEED * CHASE_SPEED_MUL * speedMul` (240 × speedMul): for any loop
state whose player the chase branch has just renormalized to the chase
speed (hypothesis `hchase`), the unconditional renormalization of
Simulation.ts:217-218 (embedded as `simPreIntegrate`, which runs
immediately before `integrate` on every tick) rescales the player's
velocity to squared norm `(BASE_SPEED * speedMul)^2`, strictly changing
the squared speed the chase branch had set. -/
theorem chase_integration_speed_bug (M : MathInterp) (st : Sim.RoundState)
    (s : ℚ)
    (hchase : speedSq st.ePlayer.vel =
      (Sim.BASE_SPEED * Sim.CHASE_SPEED_MUL * st.ePlayer.speedMul) ^ 2)
    (hs : M.sqrt (speedSq st.ePlayer.vel) = s)
    (hsq : s * s = speedSq st.ePlayer.vel)
    (hge : ¬ s < 1/10000)
    (hm : st.ePlayer.speedMul ≠ 0) :
    speedSq (Sim.simPreIntegrate M st).ePlayer.vel =
      (Sim.BASE_SPEED * st.ePlayer.speedMul) ^ 2 ∧
    speedSq (Sim.simPreIntegrate M st).ePlayer.vel ≠ speedSq st.ePlayer.vel := by
  have hs0 : s ≠ 0 := by
    intro h0
    rw [h0] at hge
    norm_num at hge
  have key : speedSq (Sim.simPreIntegrate M st).ePlayer.vel =
      (Sim.BASE_SPEED * st.ePlayer.speedMul) ^ 2 := by
    unfold Sim.simPreIntegrate Sim.normSpeed
    simp only [speedSq] at hs hsq ⊢
    rw [hs, if_neg hge]
    dsimp only
    field_simp
    linear_combination (-((Sim.BASE_SPEED * st.ePlayer.speedMul) ^ 2)) * hsq
  refine ⟨key, ?_⟩
  rw [key, hchase]
  intro heq
  have hmm : st.ePlayer.speedMul ^ 2 ≠ 0 := pow_ne_zero 2 hm
  apply hmm
  have h2 : (Sim.BASE_SPEED : ℚ) = 120 := rfl
  have h3 : (Sim.CHASE_SPEED_MUL : ℚ) = 2 := rfl
  rw [h2, h3] at heq
  nlinarith [heq]

/-- Witness for C4: the concrete chase-normalized state `c4ProbeState`
under `testInterp` satisfies every hypothesis, and the player is
integrated at squared speed `(120/48)^2 = 25/4`, not the `25` the chase
branch set. -/
theorem chase_integration_speed_bug_witness :
    (speedSq c4ProbeState.ePlayer.vel =
       (Sim.BASE_SPEED * Sim.CHASE_SPEED_MUL * c4ProbeState.ePlayer.speedMul) ^ 2 ∧
     testInterp.sqrt (speedSq c4ProbeState.ePlayer.vel) = 5 ∧
     (5 : ℚ) * 5 = speedSq c4ProbeState.ePlayer.vel ∧
     ¬ (5 : ℚ) < 1/10000 ∧
     c4ProbeState.ePlayer.speedMul ≠ 0) ∧
    (speedSq (Sim.simPreIntegrate testInterp c4ProbeState).ePlayer.vel =
       (Sim.BASE_SPEED * c4ProbeState.ePlayer.speedMul) ^ 2 ∧
     speedSq (Sim.simPreIntegrate testInterp c4ProbeState).ePlayer.vel ≠
       speedSq c4ProbeState.ePlayer.vel) :=
  ⟨⟨by set_option maxRecDepth 8000 in with_unfolding_all decide,
    by set_option maxRecDepth 8000 in with_unfolding_all decide,
    by set_option maxRecDepth 8000 in with_unfolding_all decide,
    by set_option maxRecDepth 8000 in with_unfolding_all decide,
    by set_option maxRecDepth 8000 in with_unfolding_all decide⟩,
   chase_integration_speed_bug testInterp c4ProbeState 5
     (by set_option maxRecDepth 8000 in with_unfolding_all decide)
     (by set_option maxRecDepth 8000 in with_unfolding_all decide)
     (by set_option maxRecDepth 8000 in with_unfolding_all decide)
     (by set_option maxRecDepth 8000 in with_unfolding_all decide)
     (by set_option maxRecDepth 8000 in with_unfolding_all decide)⟩

/-! ### C5 — the turn-rate cap in `applyImpulse` -/

/-- C5 counterexample: with entity velocity `(2,2)` and proposed impulse
`(60,120)` at `dt = 1/60` (scaled change `(1,2)`, post-impulse velocity
`(3,4)`, unit direction `(3/5,4/5)`, cap `maxDelta = 1/4 <
perpComp = 2/5`), `applyImpulse` scales the *whole* impulse by
`(1/4)/(2/5) = 5/8`: the applied change's parallel component is `11/8`,
not the proposed `11/5`, refuting "leaving the parallel component
unchanged". -/
theorem applyImpulse_changes_parallel_component :
    (applyImpulse testInterp c5Entity 60 120 (1/60) 1).vel = ⟨21/8, 13/4⟩ ∧
    ((applyImpulse testInterp c5Entity 60 120 (1/60) 1).vel.x - c5Entity.vel.x) * (3/5) +
      ((applyImpulse testInterp c5Entity 60 120 (1/60) 1).vel.y - c5Entity.vel.y) * (4/5) =
        11/8 ∧
    (1 : ℚ) * (3/5) + 2 * (4/5) = 11/5 ∧
    (11/8 : ℚ) ≠ 11/5 := by
  set_option maxRecDepth 8000 in with_unfolding_all decide

/-- C5 amended: when the post-impulse speed is above the `0.001` guard
and the perpendicular component of the added velocity (relative to the
post-impulse direction) exceeds `speed * tan(TURN_RATE_CAP * dt)`,
`applyImpulse` rescales the whole proposed impulse by
`maxDelta / |perpComp|`: the applied change's perpendicular component is
brought exactly to the cap with its sign preserved, and its parallel
component is scaled by the same factor — not left unchanged. -/
theorem applyImpulse_cap_scales_whole_impulse (M : MathInterp) (e : Entity)
    (ix iy dt mul sx sy vx vy spd maxD perp : ℚ)
    (hsx : sx = ix * mul * dt) (hsy : sy = iy * mul * dt)
    (hvx : vx = e.vel.x + sx) (hvy : vy = e.vel.y + sy)
    (hspd : M.sqrt (speedSq ⟨vx, vy⟩) = spd)
    (hgt : spd > 1/1000)
    (hmaxD : spd * M.tan (TURN_RATE_CAP * dt) = maxD)
    (hD0 : 0 ≤ maxD)
    (hperp : sx * (-(vy / spd)) + sy * (vx / spd) = perp)
    (hcap : |perp| > maxD) :
    (applyImpulse M e ix iy dt mul).vel.x - e.vel.x = sx * (maxD / |perp|) ∧
    (applyImpulse M e ix iy dt mul).vel.y - e.vel.y = sy * (maxD / |perp|) ∧
    ((applyImpulse M e ix iy dt mul).vel.x - e.vel.x) * (-(vy / spd)) +
      ((applyImpulse M e ix iy dt mul).vel.y - e.vel.y) * (vx / spd) =
        jsSign perp * maxD ∧
    ((applyImpulse M e ix iy dt mul).vel.x - e.vel.x) * (vx / spd) +
      ((applyImpulse M e ix iy dt mul).vel.y - e.vel.y) * (vy / spd) =
        (sx * (vx / spd) + sy * (vy / spd)) * (maxD / |perp|) := by
  have hperp0 : perp ≠ 0 := by
    intro h0
    rw [h0, abs_zero] at hcap
    exact absurd hcap (not_lt.mpr hD0)
  have hnp : -perp ≠ 0 := neg_ne_zero.mpr hperp0
  have hfac : maxD * jsSign perp / perp = maxD / |perp| := by
    rcases lt_trichotomy perp 0 with hneg | hzero | hpos
    · rw [jsSign, if_neg (not_lt.mpr hneg.le), if_pos hneg, abs_of_neg hneg,
        mul_neg_one, neg_div, div_neg]
    · exact absurd hzero hperp0
    · rw [jsSign, if_pos hpos, abs_of_pos hpos]
      ring
  have hsign : maxD / |perp| * perp = jsSign perp * maxD := by
    rcases lt_trichotomy perp 0 with hneg | hzero | hpos
    · rw [jsSign, if_neg (not_lt.mpr hneg.le), if_pos hneg, abs_of_neg hneg]
      field_simp
    · exact absurd hzero hperp0
    · rw [jsSign, if_pos hpos, abs_of_pos hpos]
      field_simp
  subst hsx hsy hvx hvy
  have h3 : (ix * mul * dt * (maxD / |perp|)) *
        (-((e.vel.y + iy * mul * dt) / spd)) +
      (iy * mul * dt * (maxD / |perp|)) *
        ((e.vel.x + ix * mul * dt) / spd) = jsSign perp * maxD := by
    have hexp : (ix * mul * dt * (maxD / |perp|)) *
          (-((e.vel.y + iy * mul * dt) / spd)) +
        (iy * mul * dt * (maxD / |perp|)) *
          ((e.vel.x + ix * mul * dt) / spd) =
        maxD / |perp| * (ix * mul * dt * (-((e.vel.y + iy * mul * dt) / spd)) +
          iy * mul * dt * ((e.vel.x + ix * mul * dt) / spd)) := by
      ring
    rw [hexp, hperp, hsign]
  have hres : (applyImpulse M e ix iy dt mul).vel =
      ⟨e.vel.x + ix * mul * dt - ix * mul * dt +
         ix * mul * dt * (maxD * jsSign perp / perp),
       e.vel.y + iy * mul * dt - iy * mul * dt +
         iy * mul * dt * (maxD * jsSign perp / perp)⟩ := by
    unfold applyImpulse
    dsimp only
    rw [hspd, hmaxD, hperp]
    rw [if_pos hgt, if_pos hcap]
  rw [hres, hfac]
  dsimp only
  exact ⟨by ring, by ring, by linear_combination h3, by ring⟩

/-- Witness for C5's amended theorem at the counterexample input. -/
theorem applyImpulse_cap_scales_whole_impulse_witness :
    (testInterp.sqrt (speedSq ⟨3, 4⟩) = 5 ∧
     (5 : ℚ) > 1/1000 ∧
     (5 : ℚ) * testInterp.tan (TURN_RATE_CAP * (1/60)) = 1/4 ∧
     |(2/5 : ℚ)| > 1/4) ∧
    ((applyImpulse testInterp c5Entity 60 120 (1/60) 1).vel.x -
        c5Entity.vel.x = 1 * ((1/4) / |(2/5 : ℚ)|) ∧
     (applyImpulse testInterp c5Entity 60 120 (1/60) 1).vel.y -
        c5Entity.vel.y = 2 * ((1/4) / |(2/5 : ℚ)|) ∧
     ((applyImpulse testInterp c5Entity 60 120 (1/60) 1).vel.x -
        c5Entity.vel.x) * (-(4 / 5)) +
       ((applyImpulse testInterp c5Entity 60 120 (1/60) 1).vel.y -
        c5Entity.vel.y) * (3 / 5) = jsSign (2/5) * (1/4) ∧
     ((applyImpulse testInterp c5Entity 60 120 (1/60) 1).vel.x -
        c5Entity.vel.x) * (3 / 5) +
       ((applyImpulse testInterp c5Entity 60 120 (1/60) 1).vel.y -
        c5Entity.vel.y) * (4 / 5) =
         (1 * (3 / 5) + 2 * (4 / 5)) * ((1/4) / |(2/5 : ℚ)|)) :=
  ⟨⟨by set_option maxRecDepth 8000 in with_unfolding_all decide,
    by set_option maxRecDepth 8000 in with_unfolding_all decide,
    by set_option maxRecDepth 8000 in with_unfolding_all decide,
    by set_option maxRecDepth 8000 in with_unfolding_all decide⟩,
   applyImpulse_cap_scales_whole_impulse testInterp c5Entity 60 120 (1/60) 1
     1 2 3 4 5 (1/4) (2/5)
     (by set_option maxRecDepth 8000 in with_unfolding_all decide)
     (by set_option maxRecDepth 8000 in with_unfolding_all decide)
     (by set_option maxRecDepth 8000 in with_unfolding_all decide)
     (by set_option maxRecDepth 8000 in with_unfolding_all decide)
     (by set_option maxRecDepth 8000 in with_unfolding_all decide)
     (by set_option maxRecDepth 8000 in with_unfolding_all decide)
     (by set_option maxRecDepth 8000 in with_unfolding_all decide)
     (by set_option maxRecDepth 8000 in with_unfolding_all decide)
     (by set_option maxRecDepth 8000 in with_unfolding_all decide)
     (by set_option maxRecDepth 8000 in with_unfolding_all decide)⟩

/-! ### C6 — wall bounce -/

/-- C6 counterexample: `c6Entity` has crossed the left wall
(`pos.x - radius = -18 < 0`) while moving right (`vel.x = 5`);
`bounceWalls` clamps the position but sets `vel.x = |5| = 5`, not the
flipped `-5` the claim states. -/
theorem bounceWalls_keeps_inward_velocity :
    c6Entity.pos.x - c6Entity.radius < c6Bounds.left ∧
    (bounceWalls c6Entity c6Bounds).pos.x = c6Bounds.left + c6Entity.radius ∧
    (bounceWalls c6Entity c6Bounds).vel.x = 5 ∧
    (bounceWalls c6Entity c6Bounds).vel.x ≠ -c6Entity.vel.x := by
  set_option maxRecDepth 8000 in with_unfolding_all decide

/-- C6 amended: per axis, when the leading edge has crossed a bound the
position is clamped to bound ± radius and the velocity component is set
to the inward-pointing absolute value (`|v|` at left/top, `-|v|` at
right/bottom) — equal to a sign flip exactly when the body was moving
outward; the second bound of an axis is only checked when the first was
not crossed, and an axis that crossed nothing is left unchanged. -/
theorem bounceWalls_clamps_and_points_inward (e : Entity) (a : ArenaBounds) :
    (e.pos.x - e.radius < a.left →
       (bounceWalls e a).pos.x = a.left + e.radius ∧
       (bounceWalls e a).vel.x = |e.vel.x|) ∧
    (¬ e.pos.x - e.radius < a.left → e.pos.x + e.radius > a.right →
       (bounceWalls e a).pos.x = a.right - e.radius ∧
       (bounceWalls e a).vel.x = -|e.vel.x|) ∧
    (¬ e.pos.x - e.radius < a.left → ¬ e.pos.x + e.radius > a.right →
       (bounceWalls e a).pos.x = e.pos.x ∧
       (bounceWalls e a).vel.x = e.vel.x) ∧
    (e.pos.y - e.radius < a.top →
       (bounceWalls e a).pos.y = a.top + e.radius ∧
       (bounceWalls e a).vel.y = |e.vel.y|) ∧
    (¬ e.pos.y - e.radius < a.top → e.pos.y + e.radius > a.bottom →
       (bounceWalls e a).pos.y = a.bottom - e.radius ∧
       (bounceWalls e a).vel.y = -|e.vel.y|) ∧
    (¬ e.pos.y - e.radius < a.top → ¬ e.pos.y + e.radius > a.bottom →
       (bounceWalls e a).pos.y = e.pos.y ∧
       (bounceWalls e a).vel.y = e.vel.y) ∧
    (e.pos.x - e.radius < a.left → e.vel.x ≤ 0 →
       (bounceWalls e a).vel.x = -e.vel.x) := by
  unfold bounceWalls
  dsimp only
  refine ⟨?_, ?_, ?_, ?_, ?_, ?_, ?_⟩ <;>
    · intros h1
      try intros h2
      split_ifs <;> simp_all

/-- Witness for C6's amended theorem: `c6Entity` crosses only the left
wall, so its position is clamped to `x = 28` and its velocity set to
`|5| = 5`; the same theorem applied to the outward-moving variant
`c6EntityOut` gives the genuine flip `-(-5) = 5`. -/
theorem bounceWalls_clamps_and_points_inward_witness :
    (c6Entity.pos.x - c6Entity.radius < c6Bounds.left ∧
     ¬ c6Entity.pos.y - c6Entity.radius < c6Bounds.top ∧
     ¬ c6Entity.pos.y + c6Entity.radius > c6Bounds.bottom) ∧
    ((bounceWalls c6Entity c6Bounds).pos.x = c6Bounds.left + c6Entity.radius ∧
     (bounceWalls c6Entity c6Bounds).vel.x = |c6Entity.vel.x|) ∧
    ((bounceWalls c6Entity c6Bounds).pos.y = c6Entity.pos.y ∧
     (bounceWalls c6Entity c6Bounds).vel.y = c6Entity.vel.y) ∧
    (bounceWalls c6EntityOut c6Bounds).vel.x = -c6EntityOut.vel.x :=
  ⟨⟨by set_option maxRecDepth 8000 in with_unfolding_all decide,
    by set_option maxRecDepth 8000 in with_unfolding_all decide,
    by set_option maxRecDepth 8000 in with_unfolding_all decide⟩,
   (bounceWalls_clamps_and_points_inward c6Entity c6Bounds).1
     (by set_option maxRecDepth 8000 in with_unfolding_all decide),
   (bounceWalls_clamps_and_points_inward c6Entity c6Bounds).2.2.2.2.2.1
     (by set_option maxRecDepth 8000 in with_unfolding_all decide)
     (by set_option maxRecDepth 8000 in with_unfolding_all decide),
   (bounceWalls_clamps_and_points_inward c6EntityOut c6Bounds).2.2.2.2.2.2
     (by set_option maxRecDepth 8000 in with_unfolding_all decide)
     (by set_option maxRecDepth 8000 in with_unfolding_all decide)⟩

/-! ### C7 — collision resolution symmetry -/

/-- C7: with an exact square root at the pair's squared center distance,
`bounceEntities` on a pair with `0.0001 ≤ d < radiusA + radiusB` pushes
the two bodies apart symmetrically by half the overlap each, leaves
their new squared separation exactly `(radiusA + radiusB)^2`, and
returns `true`; a pair with `d ≥ radiusA + radiusB` or `d < 0.0001` is
returned unchanged with `false`. -/
theorem bounceEntities_separation (M : MathInterp) (a b : Entity) (d : ℚ)
    (hd : M.sqrt ((b.pos.x - a.pos.x) * (b.pos.x - a.pos.x) +
        (b.pos.y - a.pos.y) * (b.pos.y - a.pos.y)) = d)
    (hsq : d * d = (b.pos.x - a.pos.x) * (b.pos.x - a.pos.x) +
        (b.pos.y - a.pos.y) * (b.pos.y - a.pos.y)) :
    (1/10000 ≤ d → d < a.radius + b.radius →
       (bounceEntitiesB M a b).2.2 = true ∧
       sepSq (bounceEntitiesB M a b).1 (bounceEntitiesB M a b).2.1 =
         (a.radius + b.radius) ^ 2 ∧
       (bounceEntitiesB M a b).1.pos.x - a.pos.x =
         -((bounceEntitiesB M a b).2.1.pos.x - b.pos.x) ∧
       (bounceEntitiesB M a b).1.pos.y - a.pos.y =
         -((bounceEntitiesB M a b).2.1.pos.y - b.pos.y) ∧
       ((bounceEntitiesB M a b).1.pos.x - a.pos.x) ^ 2 +
         ((bounceEntitiesB M a b).1.pos.y - a.pos.y) ^ 2 =
           ((a.radius + b.radius - d) / 2) ^ 2) ∧
    (a.radius + b.radius ≤ d ∨ d < 1/10000 →
       bounceEntitiesB M a b = (a, b, false)) := by
  constructor
  · intro h1 h2
    have hd0 : d ≠ 0 := by
      intro h0
      rw [h0] at h1
      norm_num at h1
    have hcond : ¬ (d ≥ a.radius + b.radius ∨ d < 1/10000) := by
      push_neg
      exact ⟨not_le.mp (fun hge => absurd h2 (not_lt.mpr hge)), h1⟩
    unfold bounceEntitiesB
    dsimp only
    rw [hd, if_neg hcond]
    unfold sepSq
    have hx : b.pos.x + (b.pos.x - a.pos.x) / d * (a.radius + b.radius - d) * (1/2) -
        (a.pos.x - (b.pos.x - a.pos.x) / d * (a.radius + b.radius - d) * (1/2)) =
        (b.pos.x - a.pos.x) * ((a.radius + b.radius) / d) := by
      field_simp
      ring
    have hy : b.pos.y + (b.pos.y - a.pos.y) / d * (a.radius + b.radius - d) * (1/2) -
        (a.pos.y - (b.pos.y - a.pos.y) / d * (a.radius + b.radius - d) * (1/2)) =
        (b.pos.y - a.pos.y) * ((a.radius + b.radius) / d) := by
      field_simp
      ring
    have key2 : (b.pos.x + (b.pos.x - a.pos.x) / d * (a.radius + b.radius - d) * (1/2) -
          (a.pos.x - (b.pos.x - a.pos.x) / d * (a.radius + b.radius - d) * (1/2))) ^ 2 +
        (b.pos.y + (b.pos.y - a.pos.y) / d * (a.radius + b.radius - d) * (1/2) -
          (a.pos.y - (b.pos.y - a.pos.y) / d * (a.radius + b.radius - d) * (1/2))) ^ 2 =
        (a.radius + b.radius) ^ 2 := by
      rw [hx, hy]
      calc ((b.pos.x - a.pos.x) * ((a.radius + b.radius) / d)) ^ 2 +
            ((b.pos.y - a.pos.y) * ((a.radius + b.radius) / d)) ^ 2 =
          ((b.pos.x - a.pos.x) * (b.pos.x - a.pos.x) +
            (b.pos.y - a.pos.y) * (b.pos.y - a.pos.y)) *
            ((a.radius + b.radius) / d) ^ 2 := by ring
        _ = d * d * ((a.radius + b.radius) / d) ^ 2 := by rw [← hsq]
        _ = (a.radius + b.radius) ^ 2 := by
            field_simp
            ring
    have key5 : (a.pos.x - (b.pos.x - a.pos.x) / d * (a.radius + b.radius - d) * (1/2) -
          a.pos.x) ^ 2 +
        (a.pos.y - (b.pos.y - a.pos.y) / d * (a.radius + b.radius - d) * (1/2) -
          a.pos.y) ^ 2 =
        ((a.radius + b.radius - d) / 2) ^ 2 := by
      calc (a.pos.x - (b.pos.x - a.pos.x) / d * (a.radius + b.radius - d) * (1/2) -
            a.pos.x) ^ 2 +
          (a.pos.y - (b.pos.y - a.pos.y) / d * (a.radius + b.radius - d) * (1/2) -
            a.pos.y) ^ 2 =
          ((b.pos.x - a.pos.x) * (b.pos.x - a.pos.x) +
            (b.pos.y - a.pos.y) * (b.pos.y - a.pos.y)) *
            ((a.radius + b.radius - d) * (1/2) / d) ^ 2 := by ring
        _ = d * d * ((a.radius + b.radius - d) * (1/2) / d) ^ 2 := by rw [← hsq]
        _ = ((a.radius + b.radius - d) / 2) ^ 2 := by
            field_simp
            ring
    split_ifs <;>
      exact ⟨rfl, by dsimp only; linear_combination key2,
        by dsimp only; ring, by dsimp only; ring,
        by dsimp only; linear_combination key5⟩
  · intro h
    unfold bounceEntitiesB
    dsimp only
    rw [hd, if_pos h]


/-- Witness for C7: the pair `c7A` (radius 3 at the origin) and `c7B`
(radius 3 at `(3,4)`, center distance 5 < 6) resolves: separation
becomes exactly `36 = 6^2`, the push is symmetric and has squared length
`(1/2)^2` on each side. -/
theorem bounceEntities_separation_witness :
    ((1/10000 : ℚ) ≤ 5 ∧ (5 : ℚ) < c7A.radius + c7B.radius) ∧
    ((bounceEntitiesB testInterp c7A c7B).2.2 = true ∧
     sepSq (bounceEntitiesB testInterp c7A c7B).1
         (bounceEntitiesB testInterp c7A c7B).2.1 =
       (c7A.radius + c7B.radius) ^ 2 ∧
     (bounceEntitiesB testInterp c7A c7B).1.pos.x - c7A.pos.x =
       -((bounceEntitiesB testInterp c7A c7B).2.1.pos.x - c7B.pos.x) ∧
     (bounceEntitiesB testInterp c7A c7B).1.pos.y - c7A.pos.y =
       -((bounceEntitiesB testInterp c7A c7B).2.1.pos.y - c7B.pos.y) ∧
     ((bounceEntitiesB testInterp c7A c7B).1.pos.x - c7A.pos.x) ^ 2 +
       ((bounceEntitiesB testInterp c7A c7B).1.pos.y - c7A.pos.y) ^ 2 =
         ((c7A.radius + c7B.radius - 5) / 2) ^ 2) :=
  ⟨⟨by set_option maxRecDepth 8000 in with_unfolding_all decide,
    by set_option maxRecDepth 8000 in with_unfolding_all decide⟩,
   (bounceEntities_separation testInterp c7A c7B 5
     (by set_option maxRecDepth 8000 in with_unfolding_all decide)
     (by set_option maxRecDepth 8000 in with_unfolding_all decide)).1
     (by set_option maxRecDepth 8000 in with_unfolding_all decide)
     (by set_option maxRecDepth 8000 in with_unfolding_all decide)⟩

/-! ### C8 — bias boundedness -/

/-- C8 counterexample: in the headless knife phase (Simulation.ts:174-175)
the win-case `knifeAttractionStrength() = 60` is fed directly into
`centerAttract`, so one tick adds a velocity of magnitude
`60 * dt = 1` to the player — more than 25% of the per-tick base
knife-seek impulse `200 * dt = 10/3` (the bound would be `5/6`). -/
theorem knife_bias_exceeds_quarter :
    probeOcWin.knifeAttractionStrength = 60 ∧
    speedSq (Sim.centerAttract testInterp c8Entity 260 260 Sim.FIXED_DT
        probeOcWin.knifeAttractionStrength).vel = 1 ∧
    ¬ (speedSq (Sim.centerAttract testInterp c8Entity 260 260 Sim.FIXED_DT
          probeOcWin.knifeAttractionStrength).vel ≤
        ((1/4) * (MAX_KNIFE_SEEK_IMPULSE * Sim.FIXED_DT)) *
          ((1/4) * (MAX_KNIFE_SEEK_IMPULSE * Sim.FIXED_DT))) := by
  set_option maxRecDepth 8000 in with_unfolding_all decide

/-- C8 amended: with the default bias table, for every configured win
probability and both outcomes, the knife-phase attraction magnitude is
at most 30% of `MAX_KNIFE_SEEK_IMPULSE` (60 vs 200; the 25% bound fails
there), the interactive path's `biasDelta = 0.1 × attraction` is within
25% of the base, and the steering and speed multipliers deviate from 1
by at most 0.10 and 0.03 respectively, both within 25%. -/
theorem bias_magnitudes_bounded (p : ℚ) (tw hunt : Bool) :
    |(OutcomeController.mk p DEFAULT_BIAS tw).knifeAttractionStrength| ≤
      (3/10) * MAX_KNIFE_SEEK_IMPULSE ∧
    |(1/10) * (OutcomeController.mk p DEFAULT_BIAS tw).knifeAttractionStrength| ≤
      (1/4) * MAX_KNIFE_SEEK_IMPULSE ∧
    |(OutcomeController.mk p DEFAULT_BIAS tw).steeringMultiplier hunt - 1| ≤ 1/4 ∧
    |(OutcomeController.mk p DEFAULT_BIAS tw).speedMultiplier - 1| ≤ 1/4 := by
  cases tw <;> cases hunt <;>
    norm_num [OutcomeController.knifeAttractionStrength,
      OutcomeController.steeringMultiplier, OutcomeController.speedMultiplier,
      DEFAULT_BIAS, MAX_KNIFE_SEEK_IMPULSE, abs_le]

/-! ### C9 — win probability range -/

/-- C9 counterexample: the constructor stores its argument unclamped, so
`new OutcomeController(2)` holds a win probability of 2, outside
`[0,1]`. -/
theorem create_does_not_clamp :
    (OutcomeController.create 2 DEFAULT_BIAS).winChance = 2 ∧
    ¬ ((OutcomeController.create 2 DEFAULT_BIAS).winChance ≤ 1) := by
  set_option maxRecDepth 8000 in with_unfolding_all decide

/-- C9 amended: `setWinChance` clamps every argument into `[0,1]`; the
constructor stores its argument unchanged, so construction keeps the
stored probability in `[0,1]` only when the argument already is. -/
theorem setWinChance_clamps (oc : OutcomeController) (p q : ℚ)
    (h0 : 0 ≤ q) (h1 : q ≤ 1) :
    (0 ≤ (oc.setWinChance p).winChance ∧ (oc.setWinChance p).winChance ≤ 1) ∧
    (0 ≤ (OutcomeController.create q DEFAULT_BIAS).winChance ∧
     (OutcomeController.create q DEFAULT_BIAS).winChance ≤ 1) := by
  refine ⟨⟨?_, ?_⟩, h0, h1⟩
  · exact le_max_left 0 (min 1 p)
  · exact max_le (by norm_num) (min_le_left 1 p)

/-- Witness for C9's amended theorem: `setWinChance 5` clamps to a value
in `[0,1]` and constructing with `1/2` stays in `[0,1]`. -/
theorem setWinChance_clamps_witness :
    ((0 : ℚ) ≤ 1/2 ∧ (1/2 : ℚ) ≤ 1) ∧
    ((0 ≤ (probeOcWin.setWinChance 5).winChance ∧
      (probeOcWin.setWinChance 5).winChance ≤ 1) ∧
     (0 ≤ (OutcomeController.create (1/2) DEFAULT_BIAS).winChance ∧
      (OutcomeController.create (1/2) DEFAULT_BIAS).winChance ≤ 1)) :=
  ⟨⟨by norm_num, by norm_num⟩,
   setWinChance_clamps probeOcWin 5 (1/2) (by norm_num) (by norm_num)⟩

/-! ### C10 — speed normalization -/

/-- C10 counterexample: `normalizeSpeed(-5)` on velocity `(3,4)` yields
`(-3,-4)`: the magnitude is `5 = |-5|`, not the target `-5`, and the
direction is reversed (the dot product with the original velocity is
negative), refuting "magnitude equal to the target speed with direction
preserved" for negative targets. -/
theorem normalizeSpeed_negative_target_reverses :
    (Entity.normalizeSpeed testInterp c10Entity (-5)).vel = ⟨-3, -4⟩ ∧
    ¬ (0 ≤ (Entity.normalizeSpeed testInterp c10Entity (-5)).vel.x * c10Entity.vel.x +
          (Entity.normalizeSpeed testInterp c10Entity (-5)).vel.y * c10Entity.vel.y) := by
  set_option maxRecDepth 8000 in with_unfolding_all decide

/-- C10 amended: `Entity.normalizeSpeed` and `Sim.normSpeed` are total
(the only division is guarded by the `0.0001` speed check): below the
guard the entity is exactly unchanged; above it — with an exact square
root at the current squared speed — the resulting velocity has squared
magnitude `target^2` (so magnitude `|target|`), is parallel to the
original velocity, and points the same way whenever `target ≥ 0`
(reversed for negative targets). -/
theorem normalizeSpeed_total_and_scales (M : MathInterp) (e : Entity)
    (se : SimEntity) (t u s r : ℚ)
    (hs : M.sqrt (speedSq e.vel) = s)
    (hssq : s * s = speedSq e.vel)
    (hr : M.sqrt (se.vel.x * se.vel.x + se.vel.y * se.vel.y) = r)
    (hrsq : r * r = se.vel.x * se.vel.x + se.vel.y * se.vel.y) :
    (s < 1/10000 → Entity.normalizeSpeed M e t = e) ∧
    (¬ s < 1/10000 →
       speedSq (Entity.normalizeSpeed M e t).vel = t ^ 2 ∧
       (Entity.normalizeSpeed M e t).vel.x * e.vel.y =
         (Entity.normalizeSpeed M e t).vel.y * e.vel.x ∧
       (0 ≤ t → 0 ≤ (Entity.normalizeSpeed M e t).vel.x * e.vel.x +
          (Entity.normalizeSpeed M e t).vel.y * e.vel.y)) ∧
    (r < 1/10000 → Sim.normSpeed M se u = se) ∧
    (¬ r < 1/10000 →
       speedSq (Sim.normSpeed M se u).vel = u ^ 2 ∧
       (Sim.normSpeed M se u).vel.x * se.vel.y =
         (Sim.normSpeed M se u).vel.y * se.vel.x ∧
       (0 ≤ u → 0 ≤ (Sim.normSpeed M se u).vel.x * se.vel.x +
          (Sim.normSpeed M se u).vel.y * se.vel.y)) := by
  have hE : ∀ ht : ¬ s < 1/10000, (Entity.normalizeSpeed M e t).vel =
      ⟨e.vel.x / s * t, e.vel.y / s * t⟩ := by
    intro ht
    unfold Entity.normalizeSpeed Entity.speed
    rw [hs, if_neg ht]
  have hS : ∀ ht : ¬ r < 1/10000, (Sim.normSpeed M se u).vel =
      ⟨se.vel.x / r * u, se.vel.y / r * u⟩ := by
    intro ht
    unfold Sim.normSpeed
    rw [hr, if_neg ht]
  refine ⟨?_, ?_, ?_, ?_⟩
  · intro hlt
    unfold Entity.normalizeSpeed Entity.speed
    rw [hs, if_pos hlt]
  · intro ht
    have hs0 : s ≠ 0 := by
      intro h0
      rw [h0] at ht
      norm_num at ht
    have hspos : 0 < s := lt_of_lt_of_le (by norm_num) (not_lt.mp ht)
    rw [hE ht]
    dsimp only
    simp only [speedSq] at hssq ⊢
    refine ⟨?_, by ring, ?_⟩
    · field_simp
      linear_combination (-(t ^ 2)) * hssq
    · intro htpos
      have hdot : e.vel.x / s * t * e.vel.x + e.vel.y / s * t * e.vel.y = t * s := by
        field_simp
        linear_combination (-t) * hssq
      rw [hdot]
      exact mul_nonneg htpos hspos.le
  · intro hlt
    unfold Sim.normSpeed
    rw [hr, if_pos hlt]
  · intro ht
    have hr0 : r ≠ 0 := by
      intro h0
      rw [h0] at ht
      norm_num at ht
    have hrpos : 0 < r := lt_of_lt_of_le (by norm_num) (not_lt.mp ht)
    rw [hS ht]
    dsimp only
    simp only [speedSq] at hrsq ⊢
    refine ⟨?_, by ring, ?_⟩
    · field_simp
      linear_combination (-(u ^ 2)) * hrsq
    · intro hupos
      have hdot : se.vel.x / r * u * se.vel.x + se.vel.y / r * u * se.vel.y = u * r := by
        field_simp
        linear_combination (-u) * hrsq
      rw [hdot]
      exact mul_nonneg hupos hrpos.le

/-- Witness for C10's amended theorem: velocity `(3,4)` (speed 5)
normalized to `10` (and its `SimEntity` twin normalized to `7`). -/
theorem normalizeSpeed_total_and_scales_witness :
    (testInterp.sqrt (speedSq c10Entity.vel) = 5 ∧
     (5 : ℚ) * 5 = speedSq c10Entity.vel ∧
     ¬ (5 : ℚ) < 1/10000) ∧
    (speedSq (Entity.normalizeSpeed testInterp c10Entity 10).vel = 10 ^ 2 ∧
     (Entity.normalizeSpeed testInterp c10Entity 10).vel.x * c10Entity.vel.y =
       (Entity.normalizeSpeed testInterp c10Entity 10).vel.y * c10Entity.vel.x ∧
     (0 ≤ (10 : ℚ) →
       0 ≤ (Entity.normalizeSpeed testInterp c10Entity 10).vel.x * c10Entity.vel.x +
         (Entity.normalizeSpeed testInterp c10Entity 10).vel.y * c10Entity.vel.y)) ∧
    (speedSq (Sim.normSpeed testInterp c10SimEntity 7).vel = 7 ^ 2 ∧
     (Sim.normSpeed testInterp c10SimEntity 7).vel.x * c10SimEntity.vel.y =
       (Sim.normSpeed testInterp c10SimEntity 7).vel.y * c10SimEntity.vel.x ∧
     (0 ≤ (7 : ℚ) →
       0 ≤ (Sim.normSpeed testInterp c10SimEntity 7).vel.x * c10SimEntity.vel.x +
         (Sim.normSpeed testInterp c10SimEntity 7).vel.y * c10SimEntity.vel.y)) :=
  ⟨⟨by set_option maxRecDepth 8000 in with_unfolding_all decide,
    by set_option maxRecDepth 8000 in with_unfolding_all decide,
    by set_option maxRecDepth 8000 in with_unfolding_all decide⟩,
   (normalizeSpeed_total_and_scales testInterp c10Entity c10SimEntity 10 7 5 5
     (by set_option maxRecDepth 8000 in with_unfolding_all decide)
     (by set_option maxRecDepth 8000 in with_unfolding_all decide)
     (by set_option maxRecDepth 8000 in with_unfolding_all decide)
     (by set_option maxRecDepth 8000 in with_unfolding_all decide)).2.1
     (by set_option maxRecDepth 8000 in with_unfolding_all decide),
   (normalizeSpeed_total_and_scales testInterp c10Entity c10SimEntity 10 7 5 5
     (by set_option maxRecDepth 8000 in with_unfolding_all decide)
     (by set_option maxRecDepth 8000 in with_unfolding_all decide)
     (by set_option maxRecDepth 8000 in with_unfolding_all decide)
     (by set_option maxRecDepth 8000 in with_unfolding_all decide)).2.2.2
     (by set_option maxRecDepth 8000 in with_unfolding_all decide)⟩

end DictatorBattle
